import Mathlib

/-!
# Verification of the qlive room controller

Shallow embedding of `controller/room.go` (the `RoomController` operations over
the two MongoDB collections `rooms` and `activeUsers`), together with proofs of
the behavioural properties of room creation, closure, update, entry, leaving and
the audience queries.

The store is modelled as two in-memory lists; `Find(...).One` is `List.find?`
(MongoDB returns the first matching document), `Find(...).Count` is the length
of `List.filter`, `UpdateOne` updates the first matching document, `UpdateAll`
maps over the collection, and `RemoveId` removes the first document whose `_id`
matches.
-/

namespace QLive

/-- Modelled from the spec: the `protocol.UserStatus` enumeration
(the `protocol` package is not part of the sources; §3 of the design lists the
seven states). -/
inductive UserStatus
  | idle
  | singleLive
  | pkWait
  | pkLive
  | watching
  | joinWait
  | joined
  deriving DecidableEq, Repr

/-- Modelled from the spec: `protocol.LiveRoom` (the `protocol` package is not
part of the sources; §3 of the design lists the fields: ID, Name, Creator,
Status — a string, `single` or `pk` —, RTCRoom, PlayURL, PKAnchor). -/
structure LiveRoom where
  id : String
  name : String
  creator : String
  status : String
  rtcRoom : String
  playURL : String
  pkAnchor : String
  deriving DecidableEq, Repr

/-- Modelled from the spec: `protocol.ActiveUser` (the `protocol` package is not
part of the sources; §3 of the design lists the fields ID, Status, Room,
JoinPosition — an optional seat index, cleared to none/absent). -/
structure ActiveUser where
  id : String
  status : UserStatus
  room : String
  joinPosition : Option Nat
  deriving DecidableEq, Repr

/-- The two collections of the document store seen by `RoomController`. -/
structure DB where
  rooms : List LiveRoom
  users : List ActiveUser
  deriving DecidableEq, Repr

/-- The typed failures of `errors.ServerError` used by the controller, plus
`rawNoDocuments` for the places where the controller returns the store's raw
"no documents" error unwrapped. -/
inductive OpError
  | tooManyRooms
  | roomNameUsed
  | canOnlyCreateOneRoom
  | userWatching
  | userJoined
  | userBroadcasting
  | roomNotFound
  | mongoOpFail
  | rawNoDocuments
  deriving DecidableEq, Repr

/-- Mongo `UpdateOne`: rewrite the first document matching the filter. -/
def updateFirst (p : α → Bool) (f : α → α) : List α → List α
  | [] => []
  | x :: xs => if p x then f x :: xs else x :: updateFirst p f xs

/-- The `$in` status list used by `CloseRoom`, `GetAudienceNumber` and
`GetAllAudiences`: watching, joinWait, joined. -/
def audienceStatus : UserStatus → Bool
  | .watching => true
  | .joinWait => true
  | .joined => true
  | _ => false

/-- The three broadcasting states checked by `EnterRoom` and `LeaveRoom`:
singleLive, pkLive, pkWait. -/
def broadcastingStatus : UserStatus → Bool
  | .singleLive => true
  | .pkLive => true
  | .pkWait => true
  | _ => false

/-- `RoomController.CreateRoom`.  `limit` is `roomNumberLimit` (default 20);
`userUpdateOk` models whether the final `UpdateOne` on the creator's
`ActiveUser` record succeeds — its failure is only logged. -/
def CreateRoom (limit : Nat) (db : DB) (room : LiveRoom) (userUpdateOk : Bool) :
    Except OpError (LiveRoom × DB) :=
  -- room-count limit check
  if limit ≤ db.rooms.length then .error .tooManyRooms
  else
    -- look for an existing room with the same name
    match db.rooms.find? (fun r => r.name == room.name) with
    | some existingRoom =>
      if existingRoom.creator ≠ room.creator then .error .roomNameUsed
      else .ok (existingRoom, db)
    | none =>
      -- has this creator already created a room?
      if 0 < (db.rooms.filter (fun r => r.creator == room.creator)).length then
        .error .canOnlyCreateOneRoom
      else
        match db.users.find? (fun u => u.id == room.creator) with
        | none => .error .rawNoDocuments
        | some activeUser =>
          if activeUser.status = .watching then .error .userWatching
          else if activeUser.status = .joined ∨ activeUser.status = .joinWait then
            .error .userJoined
          else
            let inserted : DB := { db with rooms := db.rooms ++ [room] }
            let newUser : ActiveUser :=
              { activeUser with status := .singleLive, room := room.id }
            let final : DB :=
              if userUpdateOk then
                { inserted with
                  users := updateFirst (fun u => u.id == room.creator)
                    (fun _ => newUser) inserted.users }
              else inserted
            .ok (room, final)

/-- `RoomController.CloseRoom`: the lookup filters on `(_id = roomID, creator =
userID)`; the room is removed by `RemoveId`, the creator's record is set to
idle/empty-room by `UpdateOne`, and `UpdateAll` sweeps every audience member of
the room to idle/empty-room/nil-join-position.  The two user updates only log
their failures, so the model runs them unconditionally. -/
def CloseRoom (db : DB) (userID : String) (roomID : String) :
    Except OpError DB :=
  match db.rooms.find? (fun r => r.id == roomID && r.creator == userID) with
  | none => .error .roomNotFound
  | some _ =>
    let rooms1 := db.rooms.eraseP (fun r => r.id == roomID)
    -- set the creator's status to idle, room to empty (joinPosition untouched)
    let users1 := updateFirst (fun u => u.id == userID)
      (fun u => { u with room := "", status := .idle }) db.users
    -- sweep all audiences of the room to idle / empty room / no join position
    let users2 := users1.map (fun u =>
      if u.room == roomID && audienceStatus u.status then
        { u with room := "", status := .idle, joinPosition := none }
      else u)
    .ok { rooms := rooms1, users := users2 }

/-- `RoomController.UpdateRoom`: look the room up by `_id`; on a non-empty,
changed name re-check uniqueness — the Go filter is
`{"_id": {"$ne": newRoom.Name}, "name": newRoom.Name}`, i.e. it compares the
stored `_id` against the NEW NAME, not against `id`; then copy `Status` when it
differs, `RTCRoom`/`PlayURL` when non-empty, `PKAnchor` always, and write the
document back with `UpdateOne` on `_id`. -/
def UpdateRoom (db : DB) (id : String) (newRoom : LiveRoom) :
    Except OpError (LiveRoom × DB) :=
  match db.rooms.find? (fun r => r.id == id) with
  | none => .error .roomNotFound
  | some room0 =>
    let renamed : Except OpError LiveRoom :=
      if newRoom.name ≠ "" ∧ newRoom.name ≠ room0.name then
        match db.rooms.find?
            (fun r => !(r.id == newRoom.name) && r.name == newRoom.name) with
        | some _ => .error .roomNameUsed
        | none => .ok { room0 with name := newRoom.name }
      else .ok room0
    match renamed with
    | .error e => .error e
    | .ok room1 =>
      let room2 :=
        if newRoom.status ≠ room1.status then { room1 with status := newRoom.status }
        else room1
      let room3 :=
        if newRoom.rtcRoom ≠ "" then { room2 with rtcRoom := newRoom.rtcRoom }
        else room2
      let room4 :=
        if newRoom.playURL ≠ "" then { room3 with playURL := newRoom.playURL }
        else room3
      let room5 := { room4 with pkAnchor := newRoom.pkAnchor }
      .ok (room5,
        { db with rooms := updateFirst (fun r => r.id == id) (fun _ => room5) db.rooms })

/-- `RoomController.EnterRoom`: the room must exist (`RoomNotFound` otherwise);
a broadcasting user is rejected with `UserBroadcasting`; a joined/joinWait user
re-enters their own room idempotently and is rejected with `UserJoined` for any
other room; otherwise the user becomes watching in `roomID`. -/
def EnterRoom (db : DB) (userID : String) (roomID : String) :
    Except OpError (LiveRoom × DB) :=
  match db.rooms.find? (fun r => r.id == roomID) with
  | none => .error .roomNotFound
  | some room =>
    match db.users.find? (fun u => u.id == userID) with
    | none => .error .rawNoDocuments
    | some activeUser =>
      if broadcastingStatus activeUser.status then .error .userBroadcasting
      else if activeUser.status = .joined ∨ activeUser.status = .joinWait then
        if activeUser.room = roomID then .ok (room, db)
        else .error .userJoined
      else
        let newUser : ActiveUser := { activeUser with status := .watching, room := roomID }
        .ok (room,
          { db with
            users := updateFirst (fun u => u.id == userID) (fun _ => newUser) db.users })

/-- `RoomController.LeaveRoom`: the room lookup is only logged (its result is
never used), so the rooms collection plays no part; a broadcasting user is
rejected with `UserBroadcasting`; otherwise the user is set to idle with empty
room and nil join position (that final `UpdateOne` only logs its failure). -/
def LeaveRoom (db : DB) (userID : String) (roomID : String) :
    Except OpError DB :=
  -- GetRoomByID(roomID) is called here, but failure does not block the operation
  match db.users.find? (fun u => u.id == userID) with
  | none => .error .rawNoDocuments
  | some activeUser =>
    if broadcastingStatus activeUser.status then .error .userBroadcasting
    else
      let newUser : ActiveUser :=
        { activeUser with status := .idle, room := "", joinPosition := none }
      .ok { db with
            users := updateFirst (fun u => u.id == userID) (fun _ => newUser) db.users }

/-- `RoomController.ListRoomsByFields`: `findOk` models whether the store query
succeeds; on failure the error is only logged and the decoded list (still the
empty list it was initialised to) is returned with a nil error. -/
def ListRoomsByFields (db : DB) (fields : LiveRoom → Bool) (findOk : Bool) :
    List LiveRoom × Option OpError :=
  if findOk then (db.rooms.filter fields, none)
  else ([], none)

/-- `RoomController.GetAudienceNumber`: `GetRoomByID` first (`RoomNotFound` on a
miss), then count the users with `room = room.ID` and an audience status. -/
def GetAudienceNumber (db : DB) (roomID : String) : Except OpError Nat :=
  match db.rooms.find? (fun r => r.id == roomID) with
  | none => .error .roomNotFound
  | some room =>
    .ok (db.users.filter (fun u => u.room == room.id && audienceStatus u.status)).length

/-- `RoomController.GetAllAudiences`: `GetRoomByID` first (`RoomNotFound` on a
miss), then list the users with `room = room.ID` and an audience status. -/
def GetAllAudiences (db : DB) (roomID : String) :
    Except OpError (List ActiveUser) :=
  match db.rooms.find? (fun r => r.id == roomID) with
  | none => .error .roomNotFound
  | some room =>
    .ok (db.users.filter (fun u => u.room == room.id && audienceStatus u.status))

/-! ## Helper lemmas on the store primitives -/

theorem find?_eq_some_of_unique {α} {p : α → Bool} :
    ∀ {l : List α} {x : α},
      (∀ a ∈ l, ∀ b ∈ l, p a → p b → a = b) →
      x ∈ l → p x → l.find? p = some x := by
  intro l
  induction l with
  | nil => intro x _ hx; exact absurd hx (List.not_mem_nil x)
  | cons a t ih =>
    intro x huniq hx hpx
    by_cases hpa : p a
    · have hax : a = x :=
        huniq a (List.mem_cons_self a t) x hx hpa hpx
      subst hax
      simp [List.find?, hpa]
    · have hxt : x ∈ t := by
        rcases List.mem_cons.mp hx with h | h
        · exact absurd (h ▸ hpx) hpa
        · exact h
      have huniq' : ∀ a' ∈ t, ∀ b ∈ t, p a' → p b → a' = b := by
        intro a' ha' b hb
        exact huniq a' (List.mem_cons_of_mem a ha') b (List.mem_cons_of_mem a hb)
      simp only [List.find?]
      rw [Bool.eq_false_iff.mpr hpa]
      exact ih huniq' hxt hpx

theorem updateFirst_eq_map {α} {p : α → Bool} (f : α → α) :
    ∀ {l : List α}, l.Pairwise (fun a b => ¬(p a = true ∧ p b = true)) →
      updateFirst p f l = l.map (fun a => if p a then f a else a) := by
  intro l
  induction l with
  | nil => intro _; rfl
  | cons a t ih =>
    intro hpw
    rcases List.pairwise_cons.mp hpw with ⟨ha, ht⟩
    by_cases hpa : p a
    · have htid : t.map (fun b => if p b then f b else b) = t := by
        have : ∀ b ∈ t, (if p b then f b else b) = b := by
          intro b hb
          have : ¬ p b = true := fun hpb => ha b hb ⟨hpa, hpb⟩
          simp [this]
        calc t.map (fun b => if p b then f b else b) = t.map id :=
              List.map_congr_left this
          _ = t := List.map_id t
      simp [updateFirst, hpa, htid]
    · simp [updateFirst, hpa, ih ht]

theorem eraseP_eq_filter {α} {p : α → Bool} :
    ∀ {l : List α}, l.Pairwise (fun a b => ¬(p a = true ∧ p b = true)) →
      l.eraseP p = l.filter (fun a => !(p a)) := by
  intro l
  induction l with
  | nil => intro _; rfl
  | cons a t ih =>
    intro hpw
    rcases List.pairwise_cons.mp hpw with ⟨ha, ht⟩
    by_cases hpa : p a
    · have htid : t.filter (fun b => !(p b)) = t := by
        rw [List.filter_eq_self]
        intro b hb
        have : ¬ p b = true := fun hpb => ha b hb ⟨hpa, hpb⟩
        simp [this]
      simp [List.eraseP_cons, hpa, htid]
    · simp [List.eraseP_cons, hpa, ih ht]

/-- Nodup of the projected keys yields the pairwise at-most-one-match property
that `updateFirst_eq_map` and `eraseP_eq_filter` expect, for a key-equality
filter. -/
theorem pairwise_key_filter {α β} {g : α → β} [DecidableEq β] {l : List α}
    (h : (l.map g).Nodup) (c : β) :
    l.Pairwise (fun a b => ¬((g a == c) = true ∧ (g b == c) = true)) := by
  have hpw : l.Pairwise (fun a b => g a ≠ g b) :=
    (List.pairwise_map).mp h
  exact hpw.imp (by
    intro a b hne hcontra
    rcases hcontra with ⟨ha, hb⟩
    exact hne (by rw [eq_of_beq ha, eq_of_beq hb]))

/-! ## C1: CreateRoom guard order -/

/-- Claim C1: the four `CreateRoom` guards are evaluated in the fixed order
room-count limit, name uniqueness, one-room-per-creator, creator presence
status, each failing with its own typed error: `TooManyRooms`, `RoomNameUsed`
(name held by a different creator), `CanOnlyCreateOneRoom`, and `UserWatching`
for status watching / `UserJoined` for joined or joinWait; the earliest failing
guard determines the outcome. -/
theorem createRoom_guard_order (limit : Nat) (db : DB) (room : LiveRoom)
    (ok : Bool) :
    (limit ≤ db.rooms.length →
      CreateRoom limit db room ok = .error .tooManyRooms) ∧
    (db.rooms.length < limit →
      ∀ ex, db.rooms.find? (fun r => r.name == room.name) = some ex →
        ex.creator ≠ room.creator →
        CreateRoom limit db room ok = .error .roomNameUsed) ∧
    (db.rooms.length < limit →
      db.rooms.find? (fun r => r.name == room.name) = none →
      0 < (db.rooms.filter (fun r => r.creator == room.creator)).length →
      CreateRoom limit db room ok = .error .canOnlyCreateOneRoom) ∧
    (db.rooms.length < limit →
      db.rooms.find? (fun r => r.name == room.name) = none →
      (db.rooms.filter (fun r => r.creator == room.creator)).length = 0 →
      ∀ u, db.users.find? (fun x => x.id == room.creator) = some u →
        (u.status = .watching →
          CreateRoom limit db room ok = .error .userWatching) ∧
        ((u.status = .joined ∨ u.status = .joinWait) →
          CreateRoom limit db room ok = .error .userJoined)) := by
  refine ⟨?_, ?_, ?_, ?_⟩
  · intro hle
    simp [CreateRoom, hle]
  · intro hlt ex hfind hne
    simp [CreateRoom, Nat.not_le.mpr hlt, hfind, hne]
  · intro hlt hfind hcnt
    simp [CreateRoom, Nat.not_le.mpr hlt, hfind, hcnt]
  · intro hlt hfind hcnt u hu
    constructor
    · intro hw
      simp [CreateRoom, Nat.not_le.mpr hlt, hfind, hcnt, hu, hw]
    · intro hj
      have hnw : ¬ u.status = .watching := by
        rcases hj with h | h <;> simp [h]
      simp [CreateRoom, Nat.not_le.mpr hlt, hfind, hcnt, hu, hnw, hj]

/-- Witness for C1: the count guard at limit 0, and the watching guard for a
watching creator, at concrete inputs. -/
theorem createRoom_guard_order_witness :
    CreateRoom 0 ⟨[], []⟩ ⟨"r2", "b", "u2", "", "", "", ""⟩ true
        = .error .tooManyRooms ∧
    CreateRoom 5 ⟨[], [⟨"u2", .watching, "rx", none⟩]⟩
        ⟨"r2", "b", "u2", "", "", "", ""⟩ true
        = .error .userWatching :=
  ⟨(createRoom_guard_order 0 ⟨[], []⟩ ⟨"r2", "b", "u2", "", "", "", ""⟩ true).1
      (by decide),
   ((createRoom_guard_order 5 ⟨[], [⟨"u2", .watching, "rx", none⟩]⟩
        ⟨"r2", "b", "u2", "", "", "", ""⟩ true).2.2.2 (by decide) rfl rfl
        ⟨"u2", .watching, "rx", none⟩ rfl).1 rfl⟩

/-! ## C2: CreateRoom idempotence for the same creator -/

/-- Claim C2: when a stored room carries the candidate's name and the same
creator (room names being unique in the store, and the count guard passing),
`CreateRoom` is idempotent: it returns the stored room and leaves the store —
both collections — unchanged, inserting no duplicate. -/
theorem createRoom_idempotent (limit : Nat) (db : DB) (room ex : LiveRoom)
    (ok : Bool)
    (hnames : (db.rooms.map (fun r => r.name)).Nodup)
    (hlt : db.rooms.length < limit)
    (hex : ex ∈ db.rooms) (hname : ex.name = room.name)
    (hc : ex.creator = room.creator) :
    CreateRoom limit db room ok = .ok (ex, db) := by
  have hfind : db.rooms.find? (fun r => r.name == room.name) = some ex := by
    refine find?_eq_some_of_unique ?_ hex (by simp [hname])
    intro a ha b hb hpa hpb
    exact List.inj_on_of_nodup_map hnames ha hb
      (by rw [eq_of_beq hpa, eq_of_beq hpb])
  simp [CreateRoom, Nat.not_le.mpr hlt, hfind, hc]

/-- Witness for C2: recreating `alice-room` by its own creator returns the
stored room and leaves the store unchanged. -/
theorem createRoom_idempotent_witness :
    CreateRoom 20
        ⟨[⟨"r1", "alice-room", "u1", "single", "", "", ""⟩],
         [⟨"u1", .singleLive, "r1", none⟩]⟩
        ⟨"r9", "alice-room", "u1", "", "", "", ""⟩ true
      = .ok (⟨"r1", "alice-room", "u1", "single", "", "", ""⟩,
        ⟨[⟨"r1", "alice-room", "u1", "single", "", "", ""⟩],
         [⟨"u1", .singleLive, "r1", none⟩]⟩) :=
  createRoom_idempotent 20 _ _ ⟨"r1", "alice-room", "u1", "single", "", "", ""⟩
    true (by decide) (by decide) (by decide) rfl rfl

/-! ## C3: CloseRoom owner check and cascade -/

/-- Claim C3: `CloseRoom(userID, roomID)` fails `RoomNotFound` when no room has
`ID = roomID` and `Creator = userID` (store untouched); on a match the room
record is deleted, the creator's record becomes idle with empty room, and every
audience member of the room (status watching, joinWait or joined, room =
roomID) becomes idle with empty room and no join position.  Stated with unique
room/user ids, as the store keys guarantee. -/
theorem closeRoom_spec (db : DB) (userID roomID : String)
    (hrids : (db.rooms.map (fun r => r.id)).Nodup)
    (huids : (db.users.map (fun u => u.id)).Nodup) :
    (db.rooms.find? (fun r => r.id == roomID && r.creator == userID) = none →
      CloseRoom db userID roomID = .error .roomNotFound) ∧
    (∀ r, db.rooms.find? (fun r => r.id == roomID && r.creator == userID) = some r →
      CloseRoom db userID roomID = .ok
        ⟨db.rooms.filter (fun r => !(r.id == roomID)),
         db.users.map (fun u =>
           if u.id == userID then { u with room := "", status := UserStatus.idle }
           else if u.room == roomID && audienceStatus u.status then
             { u with room := "", status := UserStatus.idle, joinPosition := none }
           else u)⟩) := by
  constructor
  · intro hfind
    simp [CloseRoom, hfind]
  · intro r hfind
    have hpwr := pairwise_key_filter hrids roomID
    have hpwu := pairwise_key_filter huids userID
    simp only [CloseRoom, hfind]
    rw [eraseP_eq_filter hpwr, updateFirst_eq_map _ hpwu]
    have husers :
        (db.users.map (fun u =>
            if u.id == userID then { u with room := "", status := UserStatus.idle }
            else u)).map (fun u =>
          if u.room == roomID && audienceStatus u.status then
            { u with room := "", status := UserStatus.idle, joinPosition := none }
          else u)
        = db.users.map (fun u =>
            if u.id == userID then { u with room := "", status := UserStatus.idle }
            else if u.room == roomID && audienceStatus u.status then
              { u with room := "", status := UserStatus.idle, joinPosition := none }
            else u) := by
      rw [List.map_map]
      refine List.map_congr_left ?_
      intro u _
      by_cases hu : u.id = userID
      · simp [hu, audienceStatus]
      · simp [hu]
    rw [husers]

/-- Witness for C3: the spec's closure cascade — creator plus three viewers in
watching/joinWait/joined; closing deletes the room and idles everyone. -/
theorem closeRoom_spec_witness :
    CloseRoom
        ⟨[⟨"r1", "a", "u1", "single", "", "", ""⟩],
         [⟨"u1", .singleLive, "r1", none⟩, ⟨"v1", .watching, "r1", none⟩,
          ⟨"v2", .joinWait, "r1", some 1⟩, ⟨"v3", .joined, "r1", some 2⟩]⟩
        "u1" "r1"
      = .ok ⟨[], [⟨"u1", .idle, "", none⟩, ⟨"v1", .idle, "", none⟩,
          ⟨"v2", .idle, "", none⟩, ⟨"v3", .idle, "", none⟩]⟩ := by
  have h := (closeRoom_spec
      ⟨[⟨"r1", "a", "u1", "single", "", "", ""⟩],
       [⟨"u1", .singleLive, "r1", none⟩, ⟨"v1", .watching, "r1", none⟩,
        ⟨"v2", .joinWait, "r1", some 1⟩, ⟨"v3", .joined, "r1", some 2⟩]⟩
      "u1" "r1" (by decide) (by decide)).2
      ⟨"r1", "a", "u1", "single", "", "", ""⟩ rfl
  exact h.trans rfl

/-! ## C4: UpdateRoom rename uniqueness check -/

/-- Claim C4 (code bug): the Go filter for the rename-uniqueness check is
`{"_id": {"$ne": newRoom.Name}, "name": newRoom.Name}` — it excludes rooms
whose `_id` equals the NEW NAME instead of excluding the room being renamed.
Here a different room (ID `"b"` ≠ `"r1"`) already holds the name `"b"`, yet
renaming room `"r1"` to `"b"` succeeds instead of failing `RoomNameUsed`,
contradicting the code's own comment and the spec. -/
theorem updateRoom_rename_filter_bug :
    (∃ r ∈ ([⟨"r1", "a", "u1", "single", "", "", ""⟩,
        ⟨"b", "b", "u2", "single", "", "", ""⟩] : List LiveRoom),
        r.id ≠ "r1" ∧ r.name = "b") ∧
    UpdateRoom ⟨[⟨"r1", "a", "u1", "single", "", "", ""⟩,
        ⟨"b", "b", "u2", "single", "", "", ""⟩], []⟩ "r1"
        ⟨"", "b", "", "single", "", "", ""⟩
      = .ok (⟨"r1", "b", "u1", "single", "", "", ""⟩,
        ⟨[⟨"r1", "b", "u1", "single", "", "", ""⟩,
          ⟨"b", "b", "u2", "single", "", "", ""⟩], []⟩) :=
  ⟨⟨⟨"b", "b", "u2", "single", "", "", ""⟩, by simp, by decide⟩, rfl⟩

/-! ## C5: UpdateRoom sparse-patch field semantics -/

/-- Counterexample for C5: updating room `"r1"` (stored status `"single"`) with
an all-empty patch clears the stored `Status` to the empty string instead of
preserving it — `Status` is not sparse-patched. -/
theorem updateRoom_status_counterexample :
    UpdateRoom ⟨[⟨"r1", "n", "u1", "single", "rtc", "p", ""⟩], []⟩ "r1"
        ⟨"", "", "", "", "", "", ""⟩
      = .ok (⟨"r1", "n", "u1", "", "rtc", "p", ""⟩,
        ⟨[⟨"r1", "n", "u1", "", "rtc", "p", ""⟩], []⟩) ∧
    ("" : String) ≠ "single" :=
  ⟨rfl, by decide⟩

/-- Claim C5 (amended): on every successful `UpdateRoom` the stored room's
`RTCRoom` and `PlayURL` are overwritten only when the corresponding field of
`newRoom` is non-empty (empty means "no change"), while `Status` and `PKAnchor`
are always overwritten with `newRoom`'s value, including being cleared to
empty; the merged record is written back over the room's document. -/
theorem updateRoom_field_merge (db : DB) (id : String)
    (newRoom room0 : LiveRoom)
    (hfind : db.rooms.find? (fun r => r.id == id) = some room0) :
    ∀ res db', UpdateRoom db id newRoom = .ok (res, db') →
      res.status = newRoom.status ∧
      res.rtcRoom = (if newRoom.rtcRoom ≠ "" then newRoom.rtcRoom else room0.rtcRoom) ∧
      res.playURL = (if newRoom.playURL ≠ "" then newRoom.playURL else room0.playURL) ∧
      res.pkAnchor = newRoom.pkAnchor ∧
      db'.rooms = updateFirst (fun r => r.id == id) (fun _ => res) db.rooms := by
  intro res db' h
  simp only [UpdateRoom, hfind] at h
  split at h
  case _ e heq => exact absurd h (by simp)
  case _ room1 heq =>
    have hfields : room1.status = room0.status ∧ room1.rtcRoom = room0.rtcRoom ∧
        room1.playURL = room0.playURL := by
      split at heq
      · split at heq
        · exact absurd heq (by simp)
        · rcases Except.ok.inj heq with h1
          subst h1
          exact ⟨rfl, rfl, rfl⟩
      · rcases Except.ok.inj heq with h1
        subst h1
        exact ⟨rfl, rfl, rfl⟩
    rcases Except.ok.inj h with h2
    rcases Prod.mk.injEq .. ▸ h2 with ⟨hres, hdb⟩
    subst hres
    subst hdb
    rcases hfields with ⟨hst, hrtc, hplay⟩
    refine ⟨?_, ?_, ?_, rfl, rfl⟩ <;>
      (by_cases hp : newRoom.playURL ≠ "" <;>
       by_cases hr : newRoom.rtcRoom ≠ "" <;>
       by_cases hs : newRoom.status = room0.status <;>
       simp [hp, hr, hs, hst, hrtc, hplay])

/-- Witness for C5 (amended): status `"single"` overwritten by `"pk"`, empty
`RTCRoom` preserves `"rtc"`, `"pp"` overwrites `PlayURL`, `PKAnchor` set. -/
theorem updateRoom_field_merge_witness :
    ((⟨"r1", "n", "u1", "pk", "rtc", "pp", "anchor"⟩ : LiveRoom).status = "pk") ∧
    ((⟨"r1", "n", "u1", "pk", "rtc", "pp", "anchor"⟩ : LiveRoom).rtcRoom = "rtc") ∧
    ((⟨"r1", "n", "u1", "pk", "rtc", "pp", "anchor"⟩ : LiveRoom).playURL = "pp") ∧
    ((⟨"r1", "n", "u1", "pk", "rtc", "pp", "anchor"⟩ : LiveRoom).pkAnchor = "anchor") := by
  have h := updateRoom_field_merge
      ⟨[⟨"r1", "n", "u1", "single", "rtc", "p", "x"⟩], []⟩ "r1"
      ⟨"", "", "", "pk", "", "pp", "anchor"⟩
      ⟨"r1", "n", "u1", "single", "rtc", "p", "x"⟩ rfl
      ⟨"r1", "n", "u1", "pk", "rtc", "pp", "anchor"⟩
      ⟨[⟨"r1", "n", "u1", "pk", "rtc", "pp", "anchor"⟩], []⟩ rfl
  exact ⟨h.1, by simpa using h.2.1, by simpa using h.2.2.1, h.2.2.2.1⟩

/-! ## C6: EnterRoom case analysis -/

/-- Claim C6: with the room present, `EnterRoom` rejects a broadcasting user
(`singleLive`/`pkLive`/`pkWait`) with `UserBroadcasting`; a joined/joinWait
user re-enters their own room idempotently (room returned, store unchanged)
and is rejected with `UserJoined` for a different room; in the remaining
states (idle, watching) the user becomes watching with `Room = roomID` and the
room is returned; a missing room fails `RoomNotFound`. -/
theorem enterRoom_spec (db : DB) (userID roomID : String) :
    (db.rooms.find? (fun r => r.id == roomID) = none →
      EnterRoom db userID roomID = .error .roomNotFound) ∧
    (∀ room, db.rooms.find? (fun r => r.id == roomID) = some room →
      ∀ u, db.users.find? (fun x => x.id == userID) = some u →
        ((u.status = .singleLive ∨ u.status = .pkLive ∨ u.status = .pkWait) →
          EnterRoom db userID roomID = .error .userBroadcasting) ∧
        ((u.status = .joined ∨ u.status = .joinWait) → u.room = roomID →
          EnterRoom db userID roomID = .ok (room, db)) ∧
        ((u.status = .joined ∨ u.status = .joinWait) → u.room ≠ roomID →
          EnterRoom db userID roomID = .error .userJoined) ∧
        ((u.status = .idle ∨ u.status = .watching) →
          EnterRoom db userID roomID = .ok (room,
            { db with users := (updateFirst (fun x => x.id == userID)
                (fun _ => { u with status := UserStatus.watching, room := roomID })
                db.users) }))) := by
  constructor
  · intro hfind
    simp [EnterRoom, hfind]
  · intro room hfind u hu
    refine ⟨?_, ?_, ?_, ?_⟩
    · intro hb
      have : broadcastingStatus u.status = true := by
        rcases hb with h | h | h <;> simp [h, broadcastingStatus]
      simp [EnterRoom, hfind, hu, this]
    · intro hj hroom
      have hb : broadcastingStatus u.status = false := by
        rcases hj with h | h <;> simp [h, broadcastingStatus]
      simp [EnterRoom, hfind, hu, hb, hj, hroom]
    · intro hj hroom
      have hb : broadcastingStatus u.status = false := by
        rcases hj with h | h <;> simp [h, broadcastingStatus]
      simp [EnterRoom, hfind, hu, hb, hj, hroom]
    · intro hrest
      have hb : broadcastingStatus u.status = false := by
        rcases hrest with h | h <;> simp [h, broadcastingStatus]
      have hj : ¬(u.status = .joined ∨ u.status = .joinWait) := by
        rcases hrest with h | h <;> simp [h]
      simp [EnterRoom, hfind, hu, hb, hj]

/-- Witness for C6: a singleLive broadcaster cannot enter a room, and a joined
viewer re-enters their own room idempotently. -/
theorem enterRoom_spec_witness :
    EnterRoom ⟨[⟨"r1", "a", "u1", "single", "", "", ""⟩],
        [⟨"b1", .singleLive, "r2", none⟩]⟩ "b1" "r1"
      = .error .userBroadcasting ∧
    EnterRoom ⟨[⟨"r1", "a", "u1", "single", "", "", ""⟩],
        [⟨"j1", .joined, "r1", some 1⟩]⟩ "j1" "r1"
      = .ok (⟨"r1", "a", "u1", "single", "", "", ""⟩,
        ⟨[⟨"r1", "a", "u1", "single", "", "", ""⟩],
         [⟨"j1", .joined, "r1", some 1⟩]⟩) :=
  ⟨((enterRoom_spec ⟨[⟨"r1", "a", "u1", "single", "", "", ""⟩],
        [⟨"b1", .singleLive, "r2", none⟩]⟩ "b1" "r1").2
      ⟨"r1", "a", "u1", "single", "", "", ""⟩ rfl
      ⟨"b1", .singleLive, "r2", none⟩ rfl).1 (Or.inl rfl),
   ((enterRoom_spec ⟨[⟨"r1", "a", "u1", "single", "", "", ""⟩],
        [⟨"j1", .joined, "r1", some 1⟩]⟩ "j1" "r1").2
      ⟨"r1", "a", "u1", "single", "", "", ""⟩ rfl
      ⟨"j1", .joined, "r1", some 1⟩ rfl).2.1 (Or.inl rfl) rfl⟩

/-! ## C7: LeaveRoom -/

/-- Claim C7: `LeaveRoom` never blocks on the room's absence — its result is
independent of the rooms collection; a broadcasting user fails
`UserBroadcasting` (no state produced); any other user is set to idle with
empty room and no join position, regardless of which room they were recorded
in. -/
theorem leaveRoom_spec (db : DB) (userID roomID : String) :
    (∀ u, db.users.find? (fun x => x.id == userID) = some u →
      ((u.status = .singleLive ∨ u.status = .pkLive ∨ u.status = .pkWait) →
        LeaveRoom db userID roomID = .error .userBroadcasting) ∧
      (¬(u.status = .singleLive ∨ u.status = .pkLive ∨ u.status = .pkWait) →
        LeaveRoom db userID roomID = .ok
          { db with users := (updateFirst (fun x => x.id == userID)
              (fun _ => { u with status := UserStatus.idle, room := "", joinPosition := none })
              db.users) })) ∧
    (∀ rooms2 : List LiveRoom,
      (LeaveRoom db userID roomID).map DB.users
        = (LeaveRoom ⟨rooms2, db.users⟩ userID roomID).map DB.users) := by
  constructor
  · intro u hu
    constructor
    · intro hb
      have : broadcastingStatus u.status = true := by
        rcases hb with h | h | h <;> simp [h, broadcastingStatus]
      simp [LeaveRoom, hu, this]
    · intro hb
      have : broadcastingStatus u.status = false := by
        cases hs : u.status <;> simp [broadcastingStatus] <;> simp [hs] at hb
      simp [LeaveRoom, hu, this]
  · intro rooms2
    cases hu : db.users.find? (fun x => x.id == userID) with
    | none => simp [LeaveRoom, hu]
    | some u =>
      by_cases hb : broadcastingStatus u.status = true <;>
        simp [LeaveRoom, hu, hb, Except.map]

/-- Witness for C7: a pkLive broadcaster cannot leave; a watching viewer of
room `"r9"` who calls LeaveRoom for the missing room `"r1"` is idled anyway. -/
theorem leaveRoom_spec_witness :
    LeaveRoom ⟨[], [⟨"b1", .pkLive, "r2", none⟩]⟩ "b1" "r1"
      = .error .userBroadcasting ∧
    LeaveRoom ⟨[], [⟨"v1", .watching, "r9", some 3⟩]⟩ "v1" "r1"
      = .ok ⟨[], [⟨"v1", .idle, "", none⟩]⟩ :=
  ⟨((leaveRoom_spec ⟨[], [⟨"b1", .pkLive, "r2", none⟩]⟩ "b1" "r1").1
      ⟨"b1", .pkLive, "r2", none⟩ rfl).1 (Or.inr (Or.inl rfl)),
   (((leaveRoom_spec ⟨[], [⟨"v1", .watching, "r9", some 3⟩]⟩ "v1" "r1").1
      ⟨"v1", .watching, "r9", some 3⟩ rfl).2 (by decide)).trans rfl⟩

/-! ## C8: CreateRoom absorbs the creator-status update failure -/

/-- Claim C8: when all four guards pass, the room insert succeeds and the
subsequent creator-status update fails (`userUpdateOk = false`), `CreateRoom`
still returns success with the created room; the failure is not propagated —
only the rooms collection has changed. -/
theorem createRoom_update_fail_absorbed (limit : Nat) (db : DB)
    (room : LiveRoom) (u : ActiveUser)
    (hlt : db.rooms.length < limit)
    (hfind : db.rooms.find? (fun r => r.name == room.name) = none)
    (hcnt : (db.rooms.filter (fun r => r.creator == room.creator)).length = 0)
    (hu : db.users.find? (fun x => x.id == room.creator) = some u)
    (hw : ¬ u.status = .watching)
    (hj : ¬(u.status = .joined ∨ u.status = .joinWait)) :
    CreateRoom limit db room false
      = .ok (room, { db with rooms := db.rooms ++ [room] }) := by
  simp [CreateRoom, Nat.not_le.mpr hlt, hfind, hcnt, hu, hw, hj]

/-- Witness for C8: an idle creator, the insert lands, the status update
fails, and the call still reports success with the new room. -/
theorem createRoom_update_fail_absorbed_witness :
    CreateRoom 20 ⟨[], [⟨"u1", .idle, "", none⟩]⟩
        ⟨"r1", "a", "u1", "single", "", "", ""⟩ false
      = .ok (⟨"r1", "a", "u1", "single", "", "", ""⟩,
        ⟨[⟨"r1", "a", "u1", "single", "", "", ""⟩],
         [⟨"u1", .idle, "", none⟩]⟩) :=
  createRoom_update_fail_absorbed 20 ⟨[], [⟨"u1", .idle, "", none⟩]⟩
    ⟨"r1", "a", "u1", "single", "", "", ""⟩ ⟨"u1", .idle, "", none⟩
    (by decide) rfl rfl rfl (by decide) (by decide)

/-! ## C9: ListRoomsByFields swallows store failures -/

/-- Claim C9: `ListRoomsByFields` never returns an error: when the store find
fails the failure is only logged and the (empty) decoded list is returned with
a nil error, indistinguishable from an empty result. -/
theorem listRoomsByFields_no_error (db : DB) (fields : LiveRoom → Bool)
    (findOk : Bool) :
    (ListRoomsByFields db fields findOk).2 = none ∧
    ListRoomsByFields db fields false = ([], none) := by
  constructor
  · cases findOk <;> rfl
  · rfl

/-! ## C10: audience queries require the room to exist -/

/-- Claim C10: when no stored room has `ID = roomID`, both
`GetAudienceNumber` and `GetAllAudiences` fail `RoomNotFound` instead of
returning zero / an empty list; when the lookup succeeds they return the
count/list of users in audience states whose `Room` is the found room's ID. -/
theorem audienceQueries_require_room (db : DB) (roomID : String) :
    (db.rooms.find? (fun r => r.id == roomID) = none →
      GetAudienceNumber db roomID = .error .roomNotFound ∧
      GetAllAudiences db roomID = .error .roomNotFound) ∧
    (∀ room, db.rooms.find? (fun r => r.id == roomID) = some room →
      GetAudienceNumber db roomID
          = .ok (db.users.filter
              (fun u => u.room == room.id && audienceStatus u.status)).length ∧
      GetAllAudiences db roomID
          = .ok (db.users.filter
              (fun u => u.room == room.id && audienceStatus u.status))) := by
  constructor
  · intro h
    exact ⟨by simp [GetAudienceNumber, h], by simp [GetAllAudiences, h]⟩
  · intro room h
    exact ⟨by simp [GetAudienceNumber, h], by simp [GetAllAudiences, h]⟩

/-- Witness for C10: with a watcher of the vanished room `"r1"` still on
record, both queries fail `RoomNotFound` rather than counting them. -/
theorem audienceQueries_require_room_witness :
    GetAudienceNumber ⟨[], [⟨"v1", .watching, "r1", none⟩]⟩ "r1"
      = .error .roomNotFound ∧
    GetAllAudiences ⟨[], [⟨"v1", .watching, "r1", none⟩]⟩ "r1"
      = .error .roomNotFound :=
  (audienceQueries_require_room ⟨[], [⟨"v1", .watching, "r1", none⟩]⟩ "r1").1 rfl

end QLive
